import Mathlib

/-!
Shallow embedding of the claude-chatgpt-mcp tool (src/index.ts) and proofs
about its rate limiter, clipboard-based input delivery, prompt escaping,
response-completion polling loop, argument validation and conversation
listing.  Each definition mirrors the corresponding TypeScript or embedded
AppleScript code; theorems settle the specification claims.
-/

namespace ChatGPTMCP

/-! ## Rate limiter (src/index.ts lines 55-69)

`waitForRateLimit` computes `delayToUse = customDelay || RATE_LIMIT_DELAY`
(JavaScript `||`: a `customDelay` of `0` is falsy and falls back to the
default), `timeSinceLastRequest = now - lastRequestTime`, and sleeps
`delayToUse - timeSinceLastRequest` when `timeSinceLastRequest < delayToUse`.
We model times in integer milliseconds and return the duration slept
(`0` when the function returns immediately). -/

def RATE_LIMIT_DELAY : Int := 120000

/-- The JavaScript expression `customDelay || RATE_LIMIT_DELAY` from line 62:
`none` models an `undefined` argument; a supplied `0` is falsy in JavaScript,
so it also selects the default. -/
def delayToUse (customDelay : Option Int) : Int :=
  match customDelay with
  | none => RATE_LIMIT_DELAY
  | some d => if d = 0 then RATE_LIMIT_DELAY else d

/-- Lines 59-69: the wait performed by `waitForRateLimit`, as a function of
the clock reading `now` and the module state `lastRequestTime`. -/
def waitForRateLimit (customDelay : Option Int) (now lastRequestTime : Int) : Int :=
  let timeSinceLastRequest := now - lastRequestTime
  if timeSinceLastRequest < delayToUse customDelay then
    delayToUse customDelay - timeSinceLastRequest
  else 0

/-- The rate limiter as the specification words it: the interval is the
caller-supplied override whenever one is provided, including `0`
(`interval = overrideMs ?? defaultIntervalMs`). -/
def waitForRateLimitClaimed (customDelay : Option Int) (now lastRequestTime : Int) : Int :=
  let interval := customDelay.getD RATE_LIMIT_DELAY
  let elapsed := now - lastRequestTime
  if elapsed < interval then interval - elapsed else 0

/-! ## Paste-ingest delay (src/index.ts lines 144-147)

The AppleScript computes `set pasteDelay to promptLength / 1000 + 1`; the
division is exact (AppleScript real arithmetic) and the unit is seconds. -/

/-- The delay (in seconds) the script actually waits between pasting and
submitting, for a runtime prompt string of length `promptLength`. -/
def pasteDelaySec (promptLength : Nat) : ℚ := (promptLength : ℚ) / 1000 + 1

/-- The delay as the claim words it: `max(1 second, N/1000 seconds)`. -/
def claimedPasteDelaySec (promptLength : Nat) : ℚ :=
  max 1 ((promptLength : ℚ) / 1000)

/-! ## Prompt escaping (src/index.ts line 128)

Line 128 applies two global regex replaces to the prompt: every double
quote is replaced by the two characters backslash-quote, then every
linefeed by the two characters backslash-n.  We model strings as lists of
characters and each global single-character replace as `replaceChar`. -/

/-- Replace every occurrence of the character `c` by the character list `r`
(the semantics of a global single-character regex replace). -/
def replaceChar (c : Char) (r : List Char) : List Char → List Char
  | [] => []
  | a :: rest => (if a = c then r else [a]) ++ replaceChar c r rest

/-- Line 128: the escaped prompt text interpolated into the AppleScript
source — the quote replace followed by the linefeed replace. -/
def escapePromptChars (prompt : List Char) : List Char :=
  replaceChar '\n' ['\\', 'n'] (replaceChar '"' ['\\', '"'] prompt)

/-- How AppleScript interprets the body of a double-quoted string literal.
Models the documented AppleScript escape sequences: backslash followed by a
quote, backslash, `n`, `r` or `t` denotes that character; any other
backslash sequence, a dangling backslash, or a raw quote, linefeed or
carriage return inside the body makes the literal invalid (`none`).
Input is the character sequence standing between the opening and closing
quote of the literal; output is the runtime string value. -/
def asUnescapeChars : List Char → Option (List Char)
  | [] => some []
  | c :: rest =>
    if c = '\\' then
      match rest with
      | [] => none
      | e :: rest2 =>
        if e = '"' then (asUnescapeChars rest2).map (fun t => '"' :: t)
        else if e = '\\' then (asUnescapeChars rest2).map (fun t => '\\' :: t)
        else if e = 'n' then (asUnescapeChars rest2).map (fun t => '\n' :: t)
        else if e = 'r' then (asUnescapeChars rest2).map (fun t => '\r' :: t)
        else if e = 't' then (asUnescapeChars rest2).map (fun t => '\t' :: t)
        else none
    else if c = '"' ∨ c = '\n' ∨ c = '\r' then none
    else (asUnescapeChars rest).map (fun t => c :: t)

/-! ## Clipboard-based input delivery (src/index.ts lines 128-153)

The AppleScript saves the clipboard (`set originalClipboard to the
clipboard`), overwrites it with the prompt (`set the clipboard to
thePrompt`), clicks the input field, pastes with Cmd-V, waits, presses
return, and only then restores the clipboard (`set the clipboard to
originalClipboard`).  None of these lines is inside a `try` block, so an
error raised by the click, paste or return keystroke aborts the script
before the restore line runs.  `thePrompt` is the runtime value of the
script variable (the parsed string literal). -/

/-- A UI step of the input-delivery sequence that can raise an AppleScript
error: clicking/focusing the input field (line 138), the Cmd-V paste
keystroke (line 142), or the return keystroke (line 150). -/
inductive SendStepFailure where
  | focusClick
  | paste
  | submitKey
deriving DecidableEq

/-- Result of running the input-delivery lines: the clipboard content when
the script stops (normally or by error) and whether the prompt was
delivered (all steps ran). -/
structure SendOutcome where
  finalClipboard : List Char
  delivered : Bool
deriving DecidableEq

/-- Lines 128-153 of the embedded AppleScript, as a function of the step
that fails (`none` = every UI step succeeds), the runtime prompt value and
the pre-call clipboard content.  An error aborts the script at that step;
there is no surrounding `try` block, so the restore line only runs on the
all-success path. -/
def clipboardProtocol (failAt : Option SendStepFailure) (thePrompt origClipboard : List Char) :
    SendOutcome :=
  let originalClipboard := origClipboard
  let clipboardNow := thePrompt
  if failAt = some SendStepFailure.focusClick then ⟨clipboardNow, false⟩
  else if failAt = some SendStepFailure.paste then ⟨clipboardNow, false⟩
  else if failAt = some SendStepFailure.submitKey then ⟨clipboardNow, false⟩
  else ⟨originalClipboard, true⟩

/-! ## Response-completion polling loop (src/index.ts lines 155-215)

The AppleScript polls the response text area every `pollInterval` seconds
until `waitTime > maxWaitTime`.  Each iteration reads the current text
(`""` when the read errors), and when `currentLength > 0 and currentLength
= previousResponseLength` increments `stableResponseCount`, exiting the
loop with the current text once the counter reaches 3; otherwise it resets
the counter to 0.  `previousResponseLength` is updated to the current
length on every non-exiting iteration.  With `maxWaitTime = 120` and
`pollInterval = 3`, the loop body runs for `waitTime = 0, 3, ..., 120`,
i.e. `120 / 3 + 1 = 41` times, when stability never fires.  After a
timed-out loop the script re-reads the text area if the last sampled
length was positive (falling back to a fixed message when that read
errors) and otherwise returns the fixed timeout message.
We model the sequence of reads as `read : Nat → Option String` (`none` =
the read raises an AppleScript error, which the in-loop `try` turns into
`""`). -/

/-- How the poll loop exits: `stable text polls` when the stability test
fired on poll number `polls` (1-based) returning `text`, or
`timedOut prevLen polls` when the iteration budget ran out with
`previousResponseLength = prevLen` after `polls` polls. -/
inductive LoopExit where
  | stable (text : String) (polls : Nat)
  | timedOut (prevLen : Nat) (polls : Nat)
deriving DecidableEq

/-- One iteration of the stability bookkeeping (lines 181-193): given the
required number of stable samples, the previous length, the current
counter and the current length, returns the new counter and whether the
loop exits with the current text. -/
def pollStep (requiredStableSamples prevLen stableCount curLen : Nat) : Nat × Bool :=
  if 0 < curLen ∧ curLen = prevLen then
    (stableCount + 1, decide (requiredStableSamples ≤ stableCount + 1))
  else (0, false)

/-- The poll loop (lines 166-201).  `fuel` is the number of iterations the
`waitTime` budget still allows, `idx` the index of the next read,
`prevLen` the value of `previousResponseLength` and `stableCount` the
value of `stableResponseCount`. -/
def pollLoop (read : Nat → Option String) (requiredStableSamples : Nat) :
    Nat → Nat → Nat → Nat → LoopExit
  | 0, idx, prevLen, _stableCount => LoopExit.timedOut prevLen idx
  | fuel + 1, idx, prevLen, stableCount =>
    let curText := (read idx).getD ""
    let s := pollStep requiredStableSamples prevLen stableCount curText.length
    if s.2 then LoopExit.stable curText (idx + 1)
    else pollLoop read requiredStableSamples fuel (idx + 1) curText.length s.1

/-- Number of loop-body executions the budget allows: the body runs at
`waitTime = 0, pollInterval, ...` while `waitTime ≤ maxWaitTime`. -/
def iterCount (maxWaitTime pollInterval : Nat) : Nat :=
  maxWaitTime / pollInterval + 1

/-- Fixed message returned when the post-timeout re-read errors
(line 208). -/
def couldNotRetrieveMsg : String :=
  "Could not retrieve the complete response from ChatGPT (timed out)."

/-- Fixed message returned when the loop timed out with a final sampled
length of 0 (line 211). -/
def tookTooLongMsg : String :=
  "ChatGPT took too long to respond. Please try again with a simpler question."

/-- Lines 155-215 end to end with the source constants (`maxWaitTime = 120`,
`pollInterval = 3`, 3 required stable samples): run the poll loop, then
apply the timeout handling of lines 203-212, re-reading the text area once
(read index `polls`) when the final sampled length was positive. -/
def askChatGPTResponse (read : Nat → Option String) : String :=
  match pollLoop read 3 (iterCount 120 3) 0 0 0 with
  | LoopExit.stable t _ => t
  | LoopExit.timedOut prevLen polls =>
    if 0 < prevLen then
      match read polls with
      | some t => t
      | none => couldNotRetrieveMsg
    else tookTooLongMsg

/-- A text consisting of `n` copies of `a`, used to realize a prescribed
length sequence. -/
def textOfLen (n : Nat) : String := String.mk (List.replicate n 'a')

/-- The read sequence realizing a prescribed sequence of observed lengths:
successive polls see texts whose lengths follow `lens`, and once the
response has stopped growing the rendered text persists, so later polls
keep seeing the final value. -/
def streamOfLengths (lens : List Nat) : Nat → Option String :=
  fun i => some (textOfLen (lens.getD i (lens.getLastD 0)))

/-- A read sequence whose first sample is a 7-character text and whose
every later sample is empty: a response that appeared and then vanished
from the readable surface. -/
def partialThenGone : Nat → Option String :=
  fun i => if i = 0 then some (textOfLen 7) else some ""

/-- A read sequence that grows by one character on every poll and so never
stabilizes before the budget runs out. -/
def everGrowing : Nat → Option String :=
  fun i => some (textOfLen (i + 1))

/-! ## Conversation selection snippet (src/index.ts lines 119-125)

When a `conversationId` is given, the template literal inserts it into the
script source verbatim:
`click button "${conversationId}" of group 1 of group 1 of window 1` —
no `.replace` is applied, unlike the prompt on line 128. -/

/-- Decoding of a single AppleScript backslash escape. -/
def decodeEsc (e : Char) : Option Char :=
  if e = '"' then some '"'
  else if e = '\\' then some '\\'
  else if e = 'n' then some '\n'
  else if e = 'r' then some '\r'
  else if e = 't' then some '\t'
  else none

/-- Reads a double-quoted AppleScript string literal: the input is the
script text following the opening quote; the result is the runtime value
of the literal, which ends at the first unescaped quote.  `none` when the
literal is unterminated, contains a raw line break, or uses an unknown
escape. -/
def readStringLiteral : List Char → Option (List Char)
  | [] => none
  | c :: rest =>
    if c = '"' then some []
    else if c = '\\' then
      match rest with
      | [] => none
      | e :: rest2 => (decodeEsc e).bind (fun d => (readStringLiteral rest2).map (fun t => d :: t))
    else if c = '\n' ∨ c = '\r' then none
    else (readStringLiteral rest).map (fun t => c :: t)

/-- The script text that follows the opening quote of the click-button
target on line 122: the raw `conversationId` followed by the closing quote
and the rest of the line. -/
def clickButtonLineAfterQuote (conversationId : List Char) : List Char :=
  conversationId ++ ("\" of group 1 of group 1 of window 1").data

/-- The button name the AppleScript interpreter actually looks up on line
122, i.e. the parsed value of the string literal that starts at the quote
preceding the interpolated `conversationId`. -/
def clickButtonTarget (conversationId : List Char) : Option (List Char) :=
  readStringLiteral (clickButtonLineAfterQuote conversationId)

/-! ## Argument validation and tool dispatch (src/index.ts lines 270-349)

`isChatGPTArgs` rejects a missing or unknown `operation`, and for `ask`
rejects a falsy `prompt` (missing or the empty string).  The request
handler throws (caught and turned into an `Error: ...` text with the error
flag set) before calling `askChatGPT` — and hence before any rate-limit
wait, any `lastRequestTime` update and any clipboard activity — whenever
validation fails.  The model is typed, so the `typeof` checks of lines
288-290 are vacuous. -/

/-- The argument object of a `chatgpt` tool call; `none` models an absent
field. -/
structure ChatGPTArgs where
  operation : Option String
  prompt : Option String
  conversation_id : Option String
  delay_ms : Option Int
deriving DecidableEq

/-- JavaScript truthiness of an optional string: `undefined` and `""` are
falsy. -/
def strTruthy (s : Option String) : Bool :=
  match s with
  | none => false
  | some v => !v.isEmpty

/-- Lines 270-293: the `isChatGPTArgs` validator. -/
def isChatGPTArgs (a : ChatGPTArgs) : Bool :=
  match a.operation with
  | none => false
  | some op =>
    if op ≠ "ask" ∧ op ≠ "get_conversations" then false
    else if op = "ask" ∧ !strTruthy a.prompt then false
    else true

/-- Which side effects of an `ask` dispatch ran: the rate-limit wait
(line 107), the `lastRequestTime` update (line 108) and the clipboard
writes inside the AppleScript. -/
structure AskEffects where
  rateLimitWaited : Bool
  lastRequestTimeSet : Bool
  clipboardWritten : Bool
deriving DecidableEq

/-- No side effect ran. -/
def noEffects : AskEffects := ⟨false, false, false⟩

/-- A tool-call result: the text content and the `isError` flag. -/
structure ToolResult where
  text : String
  isError : Bool
deriving DecidableEq

/-- Lines 299-366: the `CallToolRequestSchema` handler for the `chatgpt`
tool, as a function of the argument object and of the text `askResponse`
that `askChatGPT` would return.  A thrown validation error becomes an
`Error: ...` result with the error flag set (lines 356-365) and no ask
side effect runs; a dispatched `ask` runs the rate-limit wait, records
`lastRequestTime` and drives the clipboard, returning the response text or
the fixed no-response sentinel (line 327). -/
def handleChatGPTCall (a : ChatGPTArgs) (askResponse : String) : ToolResult × AskEffects :=
  if !isChatGPTArgs a then
    (⟨"Error: Invalid arguments for ChatGPT tool", true⟩, noEffects)
  else if a.operation = some "ask" then
    if !strTruthy a.prompt then
      (⟨"Error: Prompt is required for ask operation", true⟩, noEffects)
    else
      (⟨if askResponse.isEmpty then "No response received from ChatGPT." else askResponse,
        false⟩, ⟨true, true, true⟩)
  else
    (⟨"get_conversations dispatch", false⟩, noEffects)

/-! ## Conversation listing (src/index.ts lines 229-268, 333-345)

The AppleScript collects the names of the buttons of `group 1 of group 1
of window 1`, skipping the `"New chat"` button; if that enumeration errors
the inner `try` handler makes the script return a one-element AppleScript
list holding the text Unable to retrieve conversations.  `osascript` renders an
AppleScript list as its items joined by `", "`; the TypeScript then does
`result.split(", ")`.  If `runAppleScript` itself throws, the `catch`
returns `["Error retrieving conversations"]`. -/

/-- How the enumeration can go: the button names were read (the script
filters out `"New chat"`), the in-script enumeration errored, or the whole
`runAppleScript` call threw. -/
inductive ScriptOutcome where
  | ok (buttons : List String)
  | scriptError
  | callError
deriving DecidableEq

/-- JavaScript `s.split(", ")` on a character list: scan left to right,
cutting at each (non-overlapping) occurrence of the two-character
separator.  Splitting any string yields at least one piece. -/
def splitCommaSpace : List Char → List (List Char)
  | [] => [[]]
  | ',' :: ' ' :: rest => [] :: splitCommaSpace rest
  | c :: rest =>
    match splitCommaSpace rest with
    | [] => [[c]]
    | h :: t => (c :: h) :: t

/-- `result.split(", ")` at the `String` level (line 262). -/
def splitCS (s : String) : List String :=
  (splitCommaSpace s.data).map String.mk

/-- The string `osascript` yields for an AppleScript list: items joined by
`", "`. -/
def joinCS (l : List String) : String := String.intercalate ", " l

/-- Lines 229-268: `getConversations`, as a function of the enumeration
outcome. -/
def getConversations (o : ScriptOutcome) : List String :=
  match o with
  | ScriptOutcome.ok buttons =>
    splitCS (joinCS (buttons.filter (fun b => b ≠ "New chat")))
  | ScriptOutcome.scriptError => splitCS "Unable to retrieve conversations"
  | ScriptOutcome.callError => ["Error retrieving conversations"]

/-- The sentinel of the zero-conversations branch (line 341). -/
def noConversationsMsg : String := "No conversations found in ChatGPT."

/-- Lines 333-345: the text the `get_conversations` branch of the handler
produces from the list `getConversations` returned. -/
def getConversationsText (o : ScriptOutcome) : String :=
  let conversations := getConversations o
  if 0 < conversations.length then
    "Found " ++ toString conversations.length ++ " conversation(s):\n\n" ++
      String.intercalate "\n" conversations
  else noConversationsMsg

/-! ## Theorems -/

/-- Claim C3, counterexample: the claim says a supplied override of `0` is
used as the interval, so with `overrideMs = 0` and no elapsed time the
caller proceeds immediately; the code computes the interval with
JavaScript `||`, so `0` falls back to the 120000 ms default and the caller
is suspended for 120000 ms. -/
theorem rateLimit_override_zero_cex :
    waitForRateLimit (some 0) 0 0 = 120000 ∧
    waitForRateLimitClaimed (some 0) 0 0 = 0 ∧
    waitForRateLimit (some 0) 0 0 ≠ waitForRateLimitClaimed (some 0) 0 0 := by
  refine ⟨by decide, by decide, by decide⟩

/-- Claim C3, amended: the interval is the caller-supplied override when it
is nonzero, and the 120000 ms default when the override is absent or `0`;
if the elapsed time is below that interval the caller is suspended for
exactly the difference, else it proceeds immediately; consequently the
second of two back-to-back calls never proceeds before the effective
interval — which is at least `overrideMs` for every `overrideMs ≥ 0` —
has elapsed since the first. -/
theorem rateLimit_interval_and_wait (d now last : Int) :
    delayToUse none = RATE_LIMIT_DELAY ∧
    delayToUse (some 0) = RATE_LIMIT_DELAY ∧
    (d ≠ 0 → delayToUse (some d) = d) ∧
    (now - last < delayToUse (some d) →
      waitForRateLimit (some d) now last = delayToUse (some d) - (now - last)) ∧
    (delayToUse (some d) ≤ now - last → waitForRateLimit (some d) now last = 0) ∧
    (0 ≤ d → d ≤ delayToUse (some d)) ∧
    RATE_LIMIT_DELAY ≤ (now - last) + waitForRateLimit none now last ∧
    delayToUse (some d) ≤ (now - last) + waitForRateLimit (some d) now last := by
  refine ⟨rfl, by norm_num [delayToUse, RATE_LIMIT_DELAY],
    fun h => by simp [delayToUse, h], ?_, ?_, ?_, ?_, ?_⟩ <;>
  · simp only [waitForRateLimit, delayToUse, RATE_LIMIT_DELAY]
    split_ifs <;> omega

/-- Witness for the amended C3 theorem at the concrete input
`overrideMs = 5`, `now = 3` and `now = 7`, `last = 0`. -/
theorem rateLimit_interval_and_wait_witness :
    delayToUse (some 5) = 5 ∧
    waitForRateLimit (some 5) 3 0 = delayToUse (some 5) - (3 - 0) ∧
    waitForRateLimit (some 5) 7 0 = 0 ∧
    (5 : Int) ≤ delayToUse (some 5) := by
  obtain ⟨-, -, h3, h4, -, h6, -, -⟩ := rateLimit_interval_and_wait 5 3 0
  obtain ⟨-, -, -, -, h5, -, -, -⟩ := rateLimit_interval_and_wait 5 7 0
  exact ⟨h3 (by decide), h4 (by decide), h5 (by decide), h6 (by decide)⟩

/-- Claim C4, counterexample: for a prompt of length 1000 the script waits
`1000 / 1000 + 1 = 2` seconds, while the claimed formula
`max(1 s, N/1000 s)` gives 1 second. -/
theorem pasteDelay_cex :
    pasteDelaySec 1000 = 2 ∧ claimedPasteDelaySec 1000 = 1 ∧
    pasteDelaySec 1000 ≠ claimedPasteDelaySec 1000 := by
  norm_num [pasteDelaySec, claimedPasteDelaySec]

/-- Claim C4, amended: the delay between pasting and submitting is
`N/1000 + 1` seconds for a prompt of length `N`; this is always at least
the claimed `max(1 s, N/1000 s)` — so the delay is at least one second and
scales with the length — but strictly exceeds it whenever `N > 0`. -/
theorem pasteDelay_formula (n : Nat) :
    pasteDelaySec n = (n : ℚ) / 1000 + 1 ∧
    claimedPasteDelaySec n ≤ pasteDelaySec n ∧
    1 ≤ pasteDelaySec n ∧
    (0 < n → claimedPasteDelaySec n < pasteDelaySec n) := by
  have hn : (0 : ℚ) ≤ (n : ℚ) / 1000 := by positivity
  refine ⟨rfl, ?_, ?_, ?_⟩
  · exact max_le (by unfold pasteDelaySec; linarith) (by unfold pasteDelaySec; linarith)
  · unfold pasteDelaySec; linarith
  · intro h
    have hp : (0 : ℚ) < (n : ℚ) / 1000 := by
      have : (0 : ℚ) < (n : ℚ) := by exact_mod_cast h
      positivity
    exact max_lt (by unfold pasteDelaySec; linarith) (by unfold pasteDelaySec; linarith)

/-- Witness for the amended C4 theorem at prompt length 500. -/
theorem pasteDelay_formula_witness :
    claimedPasteDelaySec 500 < pasteDelaySec 500 :=
  (pasteDelay_formula 500).2.2.2 (by norm_num)

/-- Claim C2, counterexample: when the click on the input field fails, the
script aborts before the restore line, so the clipboard is left holding
the prompt rather than being restored to its pre-call snapshot. -/
theorem clipboard_not_restored_cex :
    clipboardProtocol (some SendStepFailure.focusClick) "hello".data "orig".data =
      ⟨"hello".data, false⟩ ∧
    "hello".data ≠ "orig".data := by
  refine ⟨by decide, by decide⟩

/-- Claim C2, amended: the clipboard is restored to its pre-call snapshot
only when the focus, paste and submit steps all succeed; when any of them
fails, the script aborts on that error before reaching the restore line
and the clipboard is left holding the prompt text. -/
theorem clipboard_restored_only_on_success (thePrompt origClipboard : List Char) :
    clipboardProtocol none thePrompt origClipboard =
      ⟨origClipboard, true⟩ ∧
    (∀ f, clipboardProtocol (some f) thePrompt origClipboard = ⟨thePrompt, false⟩) := by
  refine ⟨rfl, fun f => ?_⟩
  cases f <;> rfl

/-- Claim C7: an `ask` request whose prompt is missing or the empty string
fails `isChatGPTArgs`, so the handler returns the validation error (error
flag set) with none of the ask side effects — no rate-limit wait, no
`lastRequestTime` update, no clipboard write; and the prompt is not
required for `get_conversations`. -/
theorem ask_empty_prompt_rejected (a : ChatGPTArgs) (r : String)
    (hop : a.operation = some "ask")
    (hp : a.prompt = none ∨ a.prompt = some "") :
    isChatGPTArgs a = false ∧
    handleChatGPTCall a r =
      (⟨"Error: Invalid arguments for ChatGPT tool", true⟩, noEffects) ∧
    isChatGPTArgs ⟨some "get_conversations", none, none, none⟩ = true := by
  have hv : isChatGPTArgs a = false := by
    rcases hp with hp | hp <;> simp [isChatGPTArgs, hop, strTruthy, hp]
    rfl
  exact ⟨hv, by simp [handleChatGPTCall, hv], by decide⟩

/-- Witness for the C7 theorem: the concrete `ask` call with an
empty-string prompt. -/
theorem ask_empty_prompt_rejected_witness :
    isChatGPTArgs ⟨some "ask", some "", none, none⟩ = false ∧
    handleChatGPTCall ⟨some "ask", some "", none, none⟩ "resp" =
      (⟨"Error: Invalid arguments for ChatGPT tool", true⟩, noEffects) ∧
    isChatGPTArgs ⟨some "get_conversations", none, none, none⟩ = true :=
  ask_empty_prompt_rejected ⟨some "ask", some "", none, none⟩ "resp" rfl (Or.inr rfl)

/-- Claim C8: both enumeration failure modes make `getConversations`
return a single-element list whose element signals the failure: the
in-script error handler yields a one-element AppleScript list holding the
text Unable to retrieve conversations (whose string form splits back to
one element), and a thrown `runAppleScript` call is caught and turned into
a one-element array holding Error retrieving conversations. -/
theorem getConversations_failure_single :
    getConversations ScriptOutcome.scriptError = ["Unable to retrieve conversations"] ∧
    getConversations ScriptOutcome.callError = ["Error retrieving conversations"] ∧
    (getConversations ScriptOutcome.scriptError).length = 1 ∧
    (getConversations ScriptOutcome.callError).length = 1 := by
  refine ⟨by decide, by decide, by decide, by decide⟩

/-- Claim C9: the `conversationId` is interpolated into the script source
verbatim, so for the identifier `a"b` the string literal AppleScript
parses on the click-button line ends at the embedded quote: the looked-up
button name is `a`, not the supplied identifier (while an identifier
without special characters is looked up unchanged, and the prompt-escaping
of line 128 would have altered the embedded quote). -/
theorem conversationId_not_escaped :
    clickButtonTarget "a\"b".data = some "a".data ∧
    some "a".data ≠ some "a\"b".data ∧
    clickButtonTarget "Project Chat".data = some "Project Chat".data ∧
    escapePromptChars "a\"b".data ≠ "a\"b".data := by
  refine ⟨by decide, by decide, by decide, by decide⟩

/-- Splitting any character sequence on the two-character separator yields
at least one piece. -/
theorem splitCommaSpace_length_pos (l : List Char) :
    0 < (splitCommaSpace l).length := by
  induction l using splitCommaSpace.induct <;> simp_all [splitCommaSpace]

/-- The list returned by `getConversations` is never empty. -/
theorem getConversations_length_pos (o : ScriptOutcome) :
    0 < (getConversations o).length := by
  cases o with
  | ok buttons =>
    simpa [getConversations, splitCS] using
      splitCommaSpace_length_pos (joinCS ((buttons.filter (fun b => b ≠ "New chat")))).data
  | scriptError =>
    simpa [getConversations, splitCS] using
      splitCommaSpace_length_pos ("Unable to retrieve conversations").data
  | callError => simp [getConversations]

/-- Claim C10: `result.split(", ")` always yields at least one element
(even on the empty string), so `getConversations` always returns a
nonempty list and the zero-conversations branch of the handler — the
`"No conversations found in ChatGPT."` sentinel — is unreachable: the
handler text always starts with `"Found "`. -/
theorem noConversations_branch_unreachable :
    (∀ l : List Char, 0 < (splitCommaSpace l).length) ∧
    (∀ o : ScriptOutcome, 0 < (getConversations o).length) ∧
    (∀ o : ScriptOutcome, getConversationsText o ≠ noConversationsMsg) := by
  refine ⟨splitCommaSpace_length_pos, getConversations_length_pos, fun o => ?_⟩
  intro h
  simp only [getConversationsText] at h
  rw [if_pos (getConversations_length_pos o)] at h
  have h2 := congrArg String.data h
  rw [show noConversationsMsg.data = 'N' :: "o conversations found in ChatGPT.".data
    from rfl] at h2
  simp at h2

/-- A poll iteration that exits the loop saw a positive current length
that equals the previous sample, with the counter reaching the required
number of stable samples. -/
theorem pollStep_done_pos {req prevLen stableCount curLen : Nat}
    (h : (pollStep req prevLen stableCount curLen).2 = true) :
    0 < curLen ∧ curLen = prevLen ∧ req ≤ stableCount + 1 := by
  unfold pollStep at h
  split_ifs at h with hc
  simp only [decide_eq_true_eq] at h
  exact ⟨hc.1, hc.2, h⟩

/-- Whenever the poll loop exits by stability, the returned text is
non-empty: the stability test never fires on a zero length. -/
theorem pollLoop_stable_text_pos (read : Nat → Option String) (req : Nat) :
    ∀ fuel idx prevLen stableCount t p,
      pollLoop read req fuel idx prevLen stableCount = LoopExit.stable t p →
      0 < t.length := by
  intro fuel
  induction fuel with
  | zero => intro idx prevLen c t p h; simp [pollLoop] at h
  | succ n ih =>
    intro idx prevLen c t p h
    simp only [pollLoop] at h
    by_cases hs : (pollStep req prevLen c ((read idx).getD "").length).2
    · rw [if_pos hs] at h
      cases h
      exact (pollStep_done_pos hs).1
    · rw [if_neg hs] at h
      exact ih _ _ _ _ _ h

/-- Claim C1: each poll resets the stable counter to 0 when the length is
zero or changed, and otherwise increments it, transitioning to Done
exactly when the counter reaches `requiredStableSamples`; a stability exit
always returns a non-empty text (so it can never fire on the leading
zeros); and concretely, with 3 required stable samples, the length
sequence `[0, 0, 5, 9, 9, 9]` (the final text persisting on later polls)
produces Done at poll 7 — the third poll repeating the length 9, the first
9 having been sampled at poll 4 — returning the 9-character text, and the
sequence `[0, 3, 3, 3]` produces Done at poll 5, exactly 3 polls past the
poll that first sampled the length 3, returning the text of length 3. -/
theorem responseWatcher_stability (req prevLen stableCount curLen : Nat) :
    ((curLen = 0 ∨ curLen ≠ prevLen) →
      pollStep req prevLen stableCount curLen = (0, false)) ∧
    (0 < curLen → curLen = prevLen →
      pollStep req prevLen stableCount curLen =
        (stableCount + 1, decide (req ≤ stableCount + 1))) ∧
    (∀ read fuel idx pl sc t p,
      pollLoop read req fuel idx pl sc = LoopExit.stable t p → 0 < t.length) ∧
    pollLoop (streamOfLengths [0, 0, 5, 9, 9, 9]) 3 (iterCount 120 3) 0 0 0 =
      LoopExit.stable (textOfLen 9) 7 ∧
    pollLoop (streamOfLengths [0, 3, 3, 3]) 3 (iterCount 120 3) 0 0 0 =
      LoopExit.stable (textOfLen 3) 5 := by
  refine ⟨?_, ?_, fun read => pollLoop_stable_text_pos read req, by decide, by decide⟩
  · intro h
    unfold pollStep
    rw [if_neg]
    rintro ⟨h1, h2⟩
    rcases h with h | h
    · omega
    · exact h h2
  · intro h1 h2
    unfold pollStep
    rw [if_pos ⟨h1, h2⟩]

/-- Witness for the C1 theorem: a changed length resets the counter, an
unchanged positive length increments it, and the stability exit of the
`[0, 3, 3, 3]` run returns a non-empty text. -/
theorem responseWatcher_stability_witness :
    pollStep 3 0 0 5 = (0, false) ∧
    pollStep 3 9 1 9 = (2, decide (3 ≤ 2)) ∧
    0 < (textOfLen 3).length := by
  obtain ⟨h1, -, -, -, -⟩ := responseWatcher_stability 3 0 0 5
  obtain ⟨-, h2, -, -, -⟩ := responseWatcher_stability 3 9 1 9
  obtain ⟨-, -, h3, -, h5⟩ := responseWatcher_stability 3 0 0 0
  exact ⟨h1 (Or.inr (by decide)), h2 (by decide) rfl,
    h3 (streamOfLengths [0, 3, 3, 3]) (iterCount 120 3) 0 0 0 (textOfLen 3) 5 h5⟩

/-- Claim C5, counterexample: on the read sequence whose first sample is a
7-character text and whose later samples are all empty, a non-empty sample
was observed during polling, yet the timed-out watcher returns the fixed
timeout sentinel — not the last observed non-empty text — because the
timeout branch only checks the final sampled length
(`previousResponseLength`), which is 0 here. -/
theorem timeout_ignores_earlier_samples_cex :
    ((partialThenGone 0).getD "").length = 7 ∧
    pollLoop partialThenGone 3 (iterCount 120 3) 0 0 0 = LoopExit.timedOut 0 41 ∧
    askChatGPTResponse partialThenGone = tookTooLongMsg ∧
    tookTooLongMsg ≠ textOfLen 7 := by
  refine ⟨by decide, by decide, by decide, by decide⟩

/-- Claim C5, amended: when the poll loop exhausts its budget without the
stability condition firing, the outcome is decided by the final sample:
if the final sampled length was positive the watcher re-reads the output
surface once and returns that text (or the fixed could-not-retrieve
message when the re-read errors); if the final sampled length was zero —
even when earlier samples were non-empty — it returns the fixed timeout
sentinel.  Concretely, a response that grows on every poll times out after
41 polls and the re-read returns the 42-character text. -/
theorem timeout_returns_by_final_sample (read : Nat → Option String)
    (prevLen polls : Nat) (t : String)
    (hout : pollLoop read 3 (iterCount 120 3) 0 0 0 = LoopExit.timedOut prevLen polls) :
    (0 < prevLen → read polls = some t → askChatGPTResponse read = t) ∧
    (0 < prevLen → read polls = none → askChatGPTResponse read = couldNotRetrieveMsg) ∧
    (prevLen = 0 → askChatGPTResponse read = tookTooLongMsg) ∧
    askChatGPTResponse everGrowing = textOfLen 42 := by
  refine ⟨?_, ?_, ?_, by decide⟩
  · intro hp hr
    simp [askChatGPTResponse, hout, hp, hr]
  · intro hp hr
    simp [askChatGPTResponse, hout, hp, hr]
  · intro hp
    simp [askChatGPTResponse, hout, hp]

/-- Witness for the amended C5 theorem: the all-empty-after-one-sample run
falls into the sentinel branch, and the ever-growing run into the re-read
branch. -/
theorem timeout_returns_by_final_sample_witness :
    askChatGPTResponse partialThenGone = tookTooLongMsg ∧
    askChatGPTResponse everGrowing = textOfLen 42 := by
  refine ⟨(timeout_returns_by_final_sample partialThenGone 0 41 "" (by decide)).2.2.1 rfl,
    (timeout_returns_by_final_sample everGrowing 41 41 (textOfLen 42)
      (by decide)).1 (by decide) rfl⟩

/-- A global single-character replace distributes over list append. -/
theorem replaceChar_append (c : Char) (r x y : List Char) :
    replaceChar c r (x ++ y) = replaceChar c r x ++ replaceChar c r y := by
  induction x with
  | nil => simp [replaceChar]
  | cons a rest ih => simp [replaceChar, ih]

/-- Round trip of the escaping of line 128 through AppleScript literal
parsing, for prompts free of backslashes and carriage returns: the quote
and linefeed escaping makes such a prompt arrive verbatim. -/
theorem escape_roundtrip (l : List Char) (hb : '\\' ∉ l) (hr : '\r' ∉ l) :
    asUnescapeChars (escapePromptChars l) = some l := by
  induction l with
  | nil => rfl
  | cons c rest ih =>
    have hb' : '\\' ∉ rest := fun h => hb (List.mem_cons_of_mem _ h)
    have hr' : '\r' ∉ rest := fun h => hr (List.mem_cons_of_mem _ h)
    have hcb : c ≠ '\\' := fun h => hb (h ▸ List.mem_cons_self _ _)
    have hcr : c ≠ '\r' := fun h => hr (h ▸ List.mem_cons_self _ _)
    have ih' := ih hb' hr'
    rcases eq_or_ne c '"' with hq | hq
    · subst hq
      rw [show escapePromptChars ('"' :: rest) = '\\' :: '"' :: escapePromptChars rest
        from rfl]
      simp [asUnescapeChars, ih']
    · rcases eq_or_ne c '\n' with hn | hn
      · subst hn
        rw [show escapePromptChars ('\n' :: rest) = '\\' :: 'n' :: escapePromptChars rest
          from rfl]
        simp [asUnescapeChars, ih']
      · have hstep : escapePromptChars (c :: rest) = c :: escapePromptChars rest := by
          simp [escapePromptChars, replaceChar, replaceChar_append, hq, hn]
        rw [hstep]
        unfold asUnescapeChars
        simp [hcb, hq, hn, hcr, ih']

/-- Claim C6, counterexample: the backslash is structurally significant to
AppleScript but is not escaped by line 128, so the two-character prompt
backslash-n passes through the escaping unchanged and the AppleScript
literal delivers it as a single linefeed, not as the literal content; it
is moreover indistinguishable from the escaped form of the one-character
prompt consisting of a linefeed. -/
theorem prompt_escaping_cex :
    escapePromptChars ['\\', 'n'] = ['\\', 'n'] ∧
    asUnescapeChars (escapePromptChars ['\\', 'n']) = some ['\n'] ∧
    some (['\\', 'n'] : List Char) ≠ some ['\n'] ∧
    escapePromptChars ['\n'] = escapePromptChars ['\\', 'n'] ∧
    asUnescapeChars (escapePromptChars ['\\']) = none := by
  refine ⟨by decide, by decide, by decide, by decide, by decide⟩

/-- Claim C6, amended: quote and linefeed characters are escaped so they
transit as literal content, and every prompt containing no backslash and
no carriage return arrives verbatim; the backslash itself is not escaped,
however, so prompts containing one can arrive altered (backslash-n becomes
a linefeed) or make the generated literal unparsable (a lone trailing
backslash). -/
theorem prompt_escaping_amended (l : List Char) (hb : '\\' ∉ l) (hr : '\r' ∉ l) :
    asUnescapeChars (escapePromptChars l) = some l ∧
    asUnescapeChars (escapePromptChars ['\\']) = none :=
  ⟨escape_roundtrip l hb hr, by decide⟩

/-- Witness for the amended C6 theorem on a concrete prompt containing
both a quote and a linefeed. -/
theorem prompt_escaping_amended_witness :
    asUnescapeChars (escapePromptChars ("say \"hi\"\nplease").data) =
      some ("say \"hi\"\nplease").data :=
  (prompt_escaping_amended ("say \"hi\"\nplease").data (by decide) (by decide)).1

end ChatGPTMCP
